import Mathlib

/-!
# Verification of the financial calculation engine

Shallow embedding of the pure calculation functions of the personal-finance
tracker (the `calculations` module).  JavaScript numbers are modelled as
exact rationals (`ℚ`); the transcendental closed-form payoff formula uses
`ℝ` via `Real.log`.  A JS computation whose result is non-finite
(`NaN` / `Infinity`) is modelled as `none` in an `Option` result.
Dates are modelled structurally: a `PayDate` carries the year and the
0-based month exactly as returned by `Date.getFullYear` / `Date.getMonth`,
and goal target dates are carried as millisecond timestamps (`ℤ`), the
value of `Date.getTime`.  Record types keep the source's field names;
only the fields the modelled functions read are included.
-/

/-- An account record (fields read by the modelled functions). -/
structure Account where
  id : String
  nickname : String
  currentBalance : ℚ
  payrollPercentage : ℚ
deriving DecidableEq, Repr

/-- A bill record (fields read by the modelled functions). -/
structure Bill where
  id : String
  amount : ℚ
  accountId : String
  frequency : String
  isActive : Bool
deriving DecidableEq, Repr

/-- A debt record (fields read by the modelled functions). -/
structure Debt where
  id : String
  currentBalance : ℚ
  minimumPayment : ℚ
  interestRate : ℚ
deriving DecidableEq, Repr

/-- Stewardship settings (fields read by the modelled functions). -/
structure StewardshipSettings where
  paycheckAmount : ℚ
  payFrequency : String
deriving DecidableEq, Repr

/-- A calendar date as observed through the JS `Date` accessors used by
`calculateCurrentMonthIncome`: `year` is `getFullYear()`, `month` is the
0-based `getMonth()`. -/
structure PayDate where
  year : ℤ
  month : ℤ
deriving DecidableEq, Repr

/-- `calculateMonthlyIncome` from the source: converts one paycheck amount to
a monthly figure by frequency; the `default` switch arm silently applies the
bi-weekly conversion. -/
def calculateMonthlyIncome (paycheckAmount : ℚ) (frequency : String) : ℚ :=
  if frequency = "weekly" then paycheckAmount * 52 / 12
  else if frequency = "bi-weekly" then paycheckAmount * 26 / 12
  else if frequency = "semi-monthly" then paycheckAmount * 2
  else if frequency = "monthly" then paycheckAmount
  else paycheckAmount * 26 / 12

/-- `calculateCurrentMonthIncome` from the source: counts the explicit pay
dates landing in the current month (`now`), multiplied by the paycheck
amount; falls back to the frequency average when the date list is empty. -/
def calculateCurrentMonthIncome (paycheckAmount : ℚ) (frequency : String)
    (payDates : List PayDate) (now : PayDate) : ℚ :=
  let paychecksThisMonth :=
    (payDates.filter (fun d => d.month == now.month && d.year == now.year)).length
  if payDates.length = 0 then calculateMonthlyIncome paycheckAmount frequency
  else paycheckAmount * paychecksThisMonth

/-- A savings goal; `targetTime` is `new Date(goal.targetDate).getTime()` in
milliseconds. -/
structure SavingsGoal where
  targetAmount : ℚ
  currentAmount : ℚ
  monthlyContribution : ℚ
  targetTime : ℤ
deriving DecidableEq, Repr

/-- Result record of `calculateGoalProgress`. -/
structure GoalProgress where
  progressPercentage : ℚ
  monthsRemaining : ℤ
  onTrack : Bool
deriving DecidableEq, Repr

/-- `calculateGoalProgress` from the source, with the ambient `new Date()`
passed explicitly as the millisecond timestamp `nowTime`. -/
def calculateGoalProgress (goal : SavingsGoal) (nowTime : ℤ) : GoalProgress :=
  let progressPercentage := min (goal.currentAmount / goal.targetAmount * 100) 100
  let monthsRemaining : ℤ :=
    max 0 ⌈(((goal.targetTime - nowTime : ℤ) : ℚ) / (1000 * 60 * 60 * 24 * 30))⌉
  let remainingAmount := goal.targetAmount - goal.currentAmount
  let requiredMonthlyContribution : ℚ :=
    if 0 < monthsRemaining then remainingAmount / (monthsRemaining : ℚ) else 0
  { progressPercentage := progressPercentage
    monthsRemaining := monthsRemaining
    onTrack :=
      decide (requiredMonthlyContribution ≤ goal.monthlyContribution) ||
      decide ((100 : ℚ) ≤ progressPercentage) }

/-- Result record of `calculateAccountBalances`. -/
structure AccountBalanceInfo where
  accountId : String
  accountName : String
  startingBalance : ℚ
  monthlyInflow : ℚ
  monthlyOutflow : ℚ
  endingBalance : ℚ
  billsCount : ℕ
  utilization : ℚ
deriving DecidableEq, Repr

/-- The inline frequency switch of `calculateAccountBalances` that converts a
bill's amount to a monthly figure (its `default` arm keeps the raw amount,
i.e. treats it as monthly). -/
def billMonthlyAmount (bill : Bill) : ℚ :=
  if bill.frequency = "weekly" then bill.amount * 52 / 12
  else if bill.frequency = "bi-weekly" then bill.amount * 26 / 12
  else if bill.frequency = "quarterly" then bill.amount / 3
  else if bill.frequency = "annual" then bill.amount / 12
  else bill.amount

/-- `calculateAccountBalances` from the source: per-account inflow, bill
outflow, ending balance and utilization (guarded against a non-positive
inflow). -/
def calculateAccountBalances (accounts : List Account) (bills : List Bill)
    (settings : StewardshipSettings) : List AccountBalanceInfo :=
  let monthlyIncome := calculateMonthlyIncome settings.paycheckAmount settings.payFrequency
  accounts.map (fun account =>
    let accountBills := bills.filter (fun bill => bill.accountId == account.id && bill.isActive)
    let monthlyInflow := monthlyIncome * account.payrollPercentage / 100
    let monthlyOutflow := accountBills.foldl (fun sum bill => sum + billMonthlyAmount bill) 0
    let endingBalance := account.currentBalance + monthlyInflow - monthlyOutflow
    let utilization := if 0 < monthlyInflow then monthlyOutflow / monthlyInflow * 100 else 0
    { accountId := account.id
      accountName := account.nickname
      startingBalance := account.currentBalance
      monthlyInflow := monthlyInflow
      monthlyOutflow := monthlyOutflow
      endingBalance := endingBalance
      billsCount := accountBills.length
      utilization := utilization })

/-- The distinct message templates of `getBudgetRecommendations`; each
constructor carries the values interpolated into the source's string. -/
inductive RecMessage where
  | overBudget (excess : ℚ)
  | nearLimit (used : ℚ)
  | unallocated (remaining : ℚ)
  | highUtilization (accountName : String)
deriving DecidableEq, Repr

/-- Severity levels of a budget recommendation. -/
inductive RecType where
  | error
  | warning
  | suggestion
deriving DecidableEq, Repr

/-- One entry of the `getBudgetRecommendations` output. -/
structure Recommendation where
  rtype : RecType
  msg : RecMessage
deriving DecidableEq, Repr

/-- Whether a recommendation is the per-account high-utilization warning. -/
def Recommendation.isUtilizationWarning (r : Recommendation) : Bool :=
  match r.msg with
  | RecMessage.highUtilization _ => true
  | _ => false

/-- `getBudgetRecommendations` from the source: the three global allocation
checks, followed by the per-account utilization pass, which the source runs
over `calculateAccountBalances(accounts, [], { paycheckAmount: 1000,
payFrequency: 'bi-weekly' })` — an empty bill list and hard-coded settings. -/
def getBudgetRecommendations (accounts : List Account) (totalAllocated : ℚ) :
    List Recommendation :=
  let globalRecs : List Recommendation :=
    (if 100 < totalAllocated then
      [{ rtype := RecType.error, msg := RecMessage.overBudget (totalAllocated - 100) }]
     else []) ++
    (if 95 < totalAllocated ∧ totalAllocated ≤ 100 then
      [{ rtype := RecType.warning, msg := RecMessage.nearLimit totalAllocated }]
     else []) ++
    (if totalAllocated < 80 then
      [{ rtype := RecType.suggestion, msg := RecMessage.unallocated (100 - totalAllocated) }]
     else [])
  let accountBalances :=
    calculateAccountBalances accounts [] { paycheckAmount := 1000, payFrequency := "bi-weekly" }
  let utilWarnings := accountBalances.filterMap (fun balance =>
    if 90 < balance.utilization then
      some { rtype := RecType.warning, msg := RecMessage.highUtilization balance.accountName }
    else none)
  globalRecs ++ utilWarnings

/-- A debt with its mutable working balance, as built at the top of
`calculateDebtPayoffStrategy` (`{ ...debt, remainingBalance: currentBalance }`). -/
structure WorkingDebt where
  id : String
  minimumPayment : ℚ
  interestRate : ℚ
  remainingBalance : ℚ
deriving DecidableEq, Repr

/-- One entry of the simulation timeline. -/
structure TimelineEntry where
  month : ℕ
  debtId : String
  remainingBalance : ℚ
deriving DecidableEq, Repr

/-- One entry of the `monthlyPayments` output list. -/
structure MonthlyPayment where
  debtId : String
  payment : ℚ
deriving DecidableEq, Repr

/-- Result record of `calculateDebtPayoffStrategy`. -/
structure DebtPayoffStrategy where
  strategyName : String
  totalInterest : ℚ
  payoffTime : ℕ
  monthlyPayments : List MonthlyPayment
  timeline : List TimelineEntry
deriving DecidableEq, Repr

/-- The mutable state of the simulation's `while` loop. -/
structure PayoffState where
  debts : List WorkingDebt
  month : ℕ
  totalInterest : ℚ
  timeline : List TimelineEntry
  monthlyPayments : List MonthlyPayment
deriving DecidableEq, Repr

/-- `monthlyPayments.find(p => p.debtId === id).payment = pay`: overwrite the
first entry with the given debt id (the source does this only in month 1). -/
def updatePayment : List MonthlyPayment → String → ℚ → List MonthlyPayment
  | [], _, _ => []
  | p :: ps, id, pay =>
    if p.debtId = id then { p with payment := pay } :: ps
    else p :: updatePayment ps id pay

/-- The body of `workingDebts.forEach` for one month of the simulation.
`prefixRev` holds the already-processed debts (with their updated balances)
in reverse; the JS array seen by `findIndex` mid-iteration is therefore
`prefixRev.reverse ++ d :: rest` and the current index is `prefixRev.length`.
Returns the updated debt list (in order), total interest, timeline and
month-1 payment records. -/
def processDebts (extra : ℚ) (month : ℕ) :
    List WorkingDebt → List WorkingDebt → ℚ → ℚ → List TimelineEntry →
    List MonthlyPayment →
    List WorkingDebt × ℚ × List TimelineEntry × List MonthlyPayment
  | prefixRev, [], _, totalI, tl, mp => (prefixRev.reverse, totalI, tl, mp)
  | prefixRev, d :: rest, freedUp, totalI, tl, mp =>
    if d.remainingBalance ≤ 0 then
      processDebts extra month (d :: prefixRev) rest freedUp totalI tl mp
    else
      let monthlyInterest := d.remainingBalance * d.interestRate / 100 / 12
      let totalI' := totalI + monthlyInterest
      let isTarget :=
        (prefixRev.reverse ++ d :: rest).findIdx
            (fun x => decide (0 < x.remainingBalance)) = prefixRev.length
      let payment0 := d.minimumPayment + (if isTarget then extra + freedUp else 0)
      let payment := min payment0 (d.remainingBalance + monthlyInterest)
      let newBal := max 0 (d.remainingBalance + monthlyInterest - payment)
      let d' := { d with remainingBalance := newBal }
      let mp' := if month = 1 then updatePayment mp d.id payment else mp
      let freedUp' := if newBal ≤ 0 then freedUp + d.minimumPayment else freedUp
      let tl' := tl ++ [{ month := month, debtId := d.id, remainingBalance := newBal }]
      processDebts extra month (d' :: prefixRev) rest freedUp' totalI' tl' mp'

/-- One iteration of the `while` loop: bump the month counter, reset the
freed-up pool to 0 and run the `forEach` pass over all debts. -/
def runPayoffMonth (extra : ℚ) (st : PayoffState) : PayoffState :=
  let m := st.month + 1
  let r := processDebts extra m [] st.debts 0 st.totalInterest st.timeline st.monthlyPayments
  { debts := r.1, month := m, totalInterest := r.2.1,
    timeline := r.2.2.1, monthlyPayments := r.2.2.2 }

/-- Build the result record returned after the loop exits. -/
def finishPayoff (name : String) (st : PayoffState) : DebtPayoffStrategy :=
  { strategyName := name, totalInterest := st.totalInterest, payoffTime := st.month,
    monthlyPayments := st.monthlyPayments, timeline := st.timeline }

/-- The unbounded `while (workingDebts.some(d => d.remainingBalance > 0))`
loop, made total with explicit fuel: `some r` means the source loop exits
with result `r` within `fuel` iterations; `none` for every fuel means the
source loop never terminates (the source has no iteration bound). -/
def payoffLoop (extra : ℚ) (name : String) : ℕ → PayoffState → Option DebtPayoffStrategy
  | 0, st =>
    if st.debts.any (fun d => decide (0 < d.remainingBalance)) then none
    else some (finishPayoff name st)
  | fuel + 1, st =>
    if st.debts.any (fun d => decide (0 < d.remainingBalance)) then
      payoffLoop extra name fuel (runPayoffMonth extra st)
    else some (finishPayoff name st)

/-- `calculateDebtPayoffStrategy` from the source (fuel-indexed, see
`payoffLoop`): clones balances, initialises the payment list with minimums,
and runs the monthly loop. -/
def calculateDebtPayoffStrategy (fuel : ℕ) (sortedDebts : List Debt)
    (extraPayment : ℚ) (strategyName : String) : Option DebtPayoffStrategy :=
  let workingDebts := sortedDebts.map (fun d =>
    { id := d.id, minimumPayment := d.minimumPayment, interestRate := d.interestRate,
      remainingBalance := d.currentBalance : WorkingDebt })
  let monthlyPayments := workingDebts.map (fun d =>
    { debtId := d.id, payment := d.minimumPayment : MonthlyPayment })
  payoffLoop extraPayment strategyName fuel
    { debts := workingDebts, month := 0, totalInterest := 0,
      timeline := [], monthlyPayments := monthlyPayments }

/-- Stable insertion for an ascending sort by a rational key: an element is
placed before the first element with a strictly greater key, so equal keys
retain input order (JS `Array.prototype.sort` is stable). -/
def insertAscBy (key : Debt → ℚ) (x : Debt) : List Debt → List Debt
  | [] => [x]
  | y :: ys => if key x < key y then x :: y :: ys else y :: insertAscBy key x ys

/-- Stable ascending sort by a rational key, modelling
`[...debts].sort((a, b) => key(a) - key(b))`. -/
def sortAscBy (key : Debt → ℚ) (l : List Debt) : List Debt :=
  l.foldl (fun acc x => insertAscBy key x acc) []

/-- Stable insertion for a descending sort by a rational key. -/
def insertDescBy (key : Debt → ℚ) (x : Debt) : List Debt → List Debt
  | [] => [x]
  | y :: ys => if key y < key x then x :: y :: ys else y :: insertDescBy key x ys

/-- Stable descending sort by a rational key, modelling
`[...debts].sort((a, b) => key(b) - key(a))`. -/
def sortDescBy (key : Debt → ℚ) (l : List Debt) : List Debt :=
  l.foldl (fun acc x => insertDescBy key x acc) []

/-- `calculateDebtSnowball` from the source: sort ascending by current
balance, then run the shared simulation. -/
def calculateDebtSnowball (fuel : ℕ) (debts : List Debt) (extraPayment : ℚ) :
    Option DebtPayoffStrategy :=
  calculateDebtPayoffStrategy fuel (sortAscBy (fun d => d.currentBalance) debts)
    extraPayment "Debt Snowball"

/-- `calculateDebtAvalanche` from the source: sort descending by interest
rate, then run the shared simulation. -/
def calculateDebtAvalanche (fuel : ℕ) (debts : List Debt) (extraPayment : ℚ) :
    Option DebtPayoffStrategy :=
  calculateDebtPayoffStrategy fuel (sortDescBy (fun d => d.interestRate) debts)
    extraPayment "Debt Avalanche"

/-- `calculatePayoffTime` from the source.  The result is `some m` when the
JS computation produces a finite number `m`; `none` models a non-finite JS
number: for `1 - balance·r/payment ≤ 0` the source computes
`Math.ceil(-Math.log(arg)/Math.log(1+r))` with `arg ≤ 0`, which is `NaN`
(for `arg < 0`) or `Infinity` (for `arg = 0`) — there is no explicit guard
branch in the source. -/
noncomputable def calculatePayoffTime (balance monthlyPayment interestRate : ℚ) :
    Option ℤ :=
  if monthlyPayment ≤ 0 ∨ balance ≤ 0 then some 0
  else
    let monthlyInterestRate := interestRate / 100 / 12
    if monthlyInterestRate ≤ 0 then some ⌈balance / monthlyPayment⌉
    else if 1 - balance * monthlyInterestRate / monthlyPayment ≤ 0 then none
    else
      some ⌈(-Real.log ((1 : ℝ) - (balance : ℝ) * (monthlyInterestRate : ℝ) /
          (monthlyPayment : ℝ))) / Real.log (1 + (monthlyInterestRate : ℝ))⌉

/-- `calculateTotalInterest` from the source:
`Math.max(0, months * monthlyPayment - balance)`; a non-finite month count
propagates (in JS `Math.max(0, NaN)` is `NaN`). -/
noncomputable def calculateTotalInterest (balance monthlyPayment interestRate : ℚ) :
    Option ℚ :=
  (calculatePayoffTime balance monthlyPayment interestRate).map
    (fun months => max 0 ((months : ℚ) * monthlyPayment - balance))

/-- C1: the claim states that in every month the current target debt
receives its minimum payment plus the extra payment plus the minimum
payments freed by debts paid off in *prior* months.  The code violates
this: the freed-up pool is reset to zero at the start of every month, so
a minimum payment freed in month 1 is not available in month 2.  With
debts a (balance 50, minimum 50, rate 0) and b (balance 100, minimum 10,
rate 0) and zero extra payment, debt a pays off in month 1; in month 2 the
target b goes from balance 40 to 30, i.e. it receives only its own minimum
10 instead of the claimed 10 + 0 + 50 = 60, and payoff takes 5 months. -/
theorem claim_C1_prior_month_freed_minimum_not_pooled :
    (calculateDebtSnowball 10
        [{ id := "a", currentBalance := 50, minimumPayment := 50, interestRate := 0 },
         { id := "b", currentBalance := 100, minimumPayment := 10, interestRate := 0 }]
        0).map (fun s => (s.payoffTime, s.timeline)) =
      some (5,
        [{ month := 1, debtId := "a", remainingBalance := 0 },
         { month := 1, debtId := "b", remainingBalance := 40 },
         { month := 2, debtId := "b", remainingBalance := 30 },
         { month := 3, debtId := "b", remainingBalance := 20 },
         { month := 4, debtId := "b", remainingBalance := 10 },
         { month := 5, debtId := "b", remainingBalance := 0 }]) := by
  norm_num [calculateDebtSnowball, calculateDebtPayoffStrategy, sortAscBy, insertAscBy,
    payoffLoop, runPayoffMonth, processDebts, finishPayoff, updatePayment,
    List.findIdx_cons, List.any_cons]

/-- C3: the claim states that the closed-form payoff helper explicitly
detects `payment ≤ monthlyRate × balance` and reports it as a named
condition.  The code has no such branch: at the spec's own scenario
(balance 3500, payment 50, rate 18.99%) it evaluates
`Math.ceil(-Math.log(1 - 3500·r/50) / Math.log(1+r))` with a negative
log argument, silently producing `NaN` (modelled as `none`). -/
theorem claim_C3_unpayable_input_yields_silent_nan :
    calculatePayoffTime 3500 50 (1899 / 100) = none := by
  unfold calculatePayoffTime
  norm_num

/-- C4 counterexample: at the concrete unrecognized frequency tag
`"garbage"`, `calculateMonthlyIncome` does not fail: it silently returns
the bi-weekly conversion `amount × 26/12`, the very same value it returns
for the recognized tag `"bi-weekly"`. -/
theorem claim_C4_counterexample_silent_default :
    calculateMonthlyIncome 120 "garbage" = 120 * 26 / 12 ∧
    calculateMonthlyIncome 120 "garbage" = calculateMonthlyIncome 120 "bi-weekly" := by
  constructor <;> simp [calculateMonthlyIncome]

/-- C4 amended: any frequency tag other than the four handled switch cases
(`weekly`, `bi-weekly`, `semi-monthly`, `monthly`) — including every
unrecognized tag — is silently converted with the bi-weekly rule
`amount × 26/12`; no `InvalidFrequency` error exists in the code. -/
theorem claim_C4_amended_unrecognized_defaults_biweekly (amount : ℚ) (f : String)
    (h1 : f ≠ "weekly") (h2 : f ≠ "bi-weekly") (h3 : f ≠ "semi-monthly")
    (h4 : f ≠ "monthly") :
    calculateMonthlyIncome amount f = amount * 26 / 12 := by
  unfold calculateMonthlyIncome
  rw [if_neg h1, if_neg h2, if_neg h3, if_neg h4]

/-- C4 amended, witness at the concrete tag `"garbage"`. -/
theorem claim_C4_amended_witness :
    "garbage" ≠ "weekly" ∧ calculateMonthlyIncome 120 "garbage" = 120 * 26 / 12 :=
  ⟨by decide,
    claim_C4_amended_unrecognized_defaults_biweekly 120 "garbage"
      (by decide) (by decide) (by decide) (by decide)⟩

/-- C6: the claim states that a goal whose computed `monthsRemaining` is 0
with `currentAmount < targetAmount` is reported as not on track.  The code
does the opposite: at a goal with target 1000, current 500, contribution 0
and a target time 1 ms in the past, `monthsRemaining` is 0 and the required
contribution falls back to 0, so `onTrack` comes out `true`. -/
theorem claim_C6_zero_horizon_goal_reported_on_track :
    (calculateGoalProgress
        { targetAmount := 1000, currentAmount := 500, monthlyContribution := 0,
          targetTime := 0 } 1).monthsRemaining = 0 ∧
    ({ targetAmount := 1000, currentAmount := 500, monthlyContribution := 0,
        targetTime := 0 : SavingsGoal }).currentAmount <
      ({ targetAmount := 1000, currentAmount := 500, monthlyContribution := 0,
          targetTime := 0 : SavingsGoal }).targetAmount ∧
    (calculateGoalProgress
        { targetAmount := 1000, currentAmount := 500, monthlyContribution := 0,
          targetTime := 0 } 1).onTrack = true := by
  refine ⟨?_, by norm_num, ?_⟩
  · norm_num [calculateGoalProgress]
    exact Int.ceil_le.mpr (by norm_num)
  · norm_num [calculateGoalProgress]

/-- C7: with a non-empty explicit pay-date list the current-month income is
the paycheck amount times the number of listed dates in the current month
(exact); with an empty list it is the frequency average.  In particular a
$1500 bi-weekly paycheck with three August 2024 pay dates yields $4500 for
August, not the averaged $3250. -/
theorem claim_C7_explicit_pay_dates_exact :
    (∀ (a : ℚ) (f : String) (now : PayDate),
        calculateCurrentMonthIncome a f [] now = calculateMonthlyIncome a f) ∧
    (∀ (a : ℚ) (f : String) (d : PayDate) (ds : List PayDate) (now : PayDate),
        calculateCurrentMonthIncome a f (d :: ds) now =
          a * (((d :: ds).filter
            (fun x => x.month == now.month && x.year == now.year)).length : ℚ)) ∧
    calculateCurrentMonthIncome 1500 "bi-weekly"
      [{ year := 2024, month := 7 }, { year := 2024, month := 7 },
       { year := 2024, month := 7 }] { year := 2024, month := 7 } = 4500 ∧
    calculateMonthlyIncome 1500 "bi-weekly" = 3250 := by
  refine ⟨fun a f now => rfl, fun a f d ds now => ?_, ?_, by simp [calculateMonthlyIncome]; norm_num⟩
  · simp [calculateCurrentMonthIncome]
  · norm_num [calculateCurrentMonthIncome, List.filter]

/-- C8: the claim states that snowball and avalanche agree on
`totalInterest` and payoff months whenever the extra payment is zero.
They do not: with debts a (balance 10, minimum 11, rate 12%) and b
(balance 20, minimum 10, rate 24%) and zero extra payment, the snowball
run finishes in 1 month with total interest 1/2, while the avalanche run
takes 3 months with total interest 4501/6250 — because a minimum payment
freed mid-month rolls over only to debts later in the locked sort order
within that same month, which depends on the ordering. -/
theorem claim_C8_snowball_avalanche_differ_at_zero_extra :
    (calculateDebtSnowball 10
        [{ id := "a", currentBalance := 10, minimumPayment := 11, interestRate := 12 },
         { id := "b", currentBalance := 20, minimumPayment := 10, interestRate := 24 }]
        0).map (fun s => (s.payoffTime, s.totalInterest)) = some (1, 1 / 2) ∧
    (calculateDebtAvalanche 10
        [{ id := "a", currentBalance := 10, minimumPayment := 11, interestRate := 12 },
         { id := "b", currentBalance := 20, minimumPayment := 10, interestRate := 24 }]
        0).map (fun s => (s.payoffTime, s.totalInterest)) = some (3, 4501 / 6250) := by
  constructor <;>
    norm_num [calculateDebtSnowball, calculateDebtAvalanche, calculateDebtPayoffStrategy,
      sortAscBy, insertAscBy, sortDescBy, insertDescBy, payoffLoop, runPayoffMonth,
      processDebts, finishPayoff, updatePayment, List.findIdx_cons, List.any_cons]

/-- C9: in every entry produced by the cash-flow projector, utilization is
outflow/inflow × 100 when the inflow is positive and exactly 0 when the
inflow is 0 (the division is guarded). -/
theorem claim_C9_utilization_division_guarded (accounts : List Account)
    (bills : List Bill) (settings : StewardshipSettings) (e : AccountBalanceInfo)
    (he : e ∈ calculateAccountBalances accounts bills settings) :
    (0 < e.monthlyInflow → e.utilization = e.monthlyOutflow / e.monthlyInflow * 100) ∧
    (e.monthlyInflow = 0 → e.utilization = 0) := by
  unfold calculateAccountBalances at he
  simp only [List.mem_map] at he
  obtain ⟨a, -, rfl⟩ := he
  dsimp only
  constructor
  · intro h
    rw [if_pos h]
  · intro h
    rw [h, if_neg (lt_irrefl 0)]

/-- C9 witness: a single account with payroll percentage 0 yields the entry
with zero inflow, and the theorem gives utilization 0 for it. -/
theorem claim_C9_witness :
    ({ accountId := "a", accountName := "A", startingBalance := 0, monthlyInflow := 0,
       monthlyOutflow := 0, endingBalance := 0, billsCount := 0, utilization := 0 } :
      AccountBalanceInfo).utilization = 0 :=
  (claim_C9_utilization_division_guarded
      [{ id := "a", nickname := "A", currentBalance := 0, payrollPercentage := 0 }] []
      { paycheckAmount := 1000, payFrequency := "monthly" } _
      (by norm_num [calculateAccountBalances, calculateMonthlyIncome])).2 rfl

/-- C10: the closed-form total-interest helper never returns a negative
finite value — the raw estimate `months × payment − balance` is clamped at
zero, and whenever the raw estimate is non-positive the reported interest
is exactly 0. -/
theorem claim_C10_total_interest_clamped_nonneg :
    (∀ (balance monthlyPayment interestRate q : ℚ),
        calculateTotalInterest balance monthlyPayment interestRate = some q → 0 ≤ q) ∧
    (∀ (balance monthlyPayment interestRate : ℚ) (m : ℤ),
        calculatePayoffTime balance monthlyPayment interestRate = some m →
        (m : ℚ) * monthlyPayment - balance ≤ 0 →
        calculateTotalInterest balance monthlyPayment interestRate = some 0) := by
  constructor
  · intro balance monthlyPayment interestRate q h
    unfold calculateTotalInterest at h
    cases hm : calculatePayoffTime balance monthlyPayment interestRate with
    | none => rw [hm] at h; simp at h
    | some m =>
      rw [hm] at h
      have h2 : some (max 0 ((m : ℚ) * monthlyPayment - balance)) = some q := h
      obtain rfl : max 0 ((m : ℚ) * monthlyPayment - balance) = q := Option.some.inj h2
      exact le_max_left 0 _
  · intro balance monthlyPayment interestRate m hm hraw
    unfold calculateTotalInterest
    rw [hm]
    exact congrArg some (max_eq_left hraw)

/-- C10 witness: at balance 100, payment 50, rate 0 the payoff is 2 months
and the total interest is exactly 0, which is non-negative. -/
theorem claim_C10_witness :
    calculateTotalInterest 100 50 0 = some 0 ∧ (0 : ℚ) ≤ 0 :=
  ⟨by norm_num [calculateTotalInterest, calculatePayoffTime],
    claim_C10_total_interest_clamped_nonneg.1 100 50 0 0
      (by norm_num [calculateTotalInterest, calculatePayoffTime])⟩

/-- With an empty bill list every entry of `calculateAccountBalances` has
utilization 0 (outflow is 0 and the zero-inflow branch also yields 0). -/
theorem utilization_zero_of_empty_bills (accounts : List Account)
    (settings : StewardshipSettings) :
    ∀ b ∈ calculateAccountBalances accounts [] settings, b.utilization = 0 := by
  intro b hb
  unfold calculateAccountBalances at hb
  simp only [List.mem_map] at hb
  obtain ⟨a, -, rfl⟩ := hb
  dsimp only
  simp

/-- C5: the claim states that `getBudgetRecommendations` emits a warning for
each account whose bill utilization exceeds 90%.  It cannot: the source
computes the utilization pass over an empty bill list and hard-coded
settings, so every utilization is 0 and the per-account warning never
appears in the output, for any accounts and any allocation percentage. -/
theorem claim_C5_utilization_warning_never_emitted (accounts : List Account)
    (totalAllocated : ℚ) :
    (getBudgetRecommendations accounts totalAllocated).filter
      (fun r => r.isUtilizationWarning) = [] := by
  unfold getBudgetRecommendations
  dsimp only
  have hu : (calculateAccountBalances accounts []
        { paycheckAmount := 1000, payFrequency := "bi-weekly" }).filterMap
      (fun balance =>
        if 90 < balance.utilization then
          some ({ rtype := RecType.warning,
                  msg := RecMessage.highUtilization balance.accountName } : Recommendation)
        else none) = [] := by
    rw [List.filterMap_eq_nil_iff]
    intro b hb
    rw [utilization_zero_of_empty_bills accounts _ b hb]
    norm_num
  rw [hu]
  rw [List.append_nil]
  rw [List.filter_append, List.filter_append]
  split_ifs <;> simp [Recommendation.isUtilizationWarning, List.filter]


/-- One month of the simulation on a single unpayable debt (minimum payment
5, rate 24%, balance at least 1000, no extra payment): the payment does not
cover the monthly interest of `b × 24/1200`, so the balance strictly grows. -/
theorem processDebts_single_unpayable (m : ℕ) (totalI : ℚ) (tl : List TimelineEntry)
    (mp : List MonthlyPayment) (b : ℚ) (hb : 1000 ≤ b) :
    processDebts 0 m []
      [{ id := "x", minimumPayment := 5, interestRate := 24, remainingBalance := b }]
      0 totalI tl mp =
      ([{ id := "x", minimumPayment := 5, interestRate := 24,
          remainingBalance := b + b * 24 / 100 / 12 - 5 }],
        totalI + b * 24 / 100 / 12,
        tl ++ [{ month := m, debtId := "x",
                 remainingBalance := b + b * 24 / 100 / 12 - 5 }],
        if m = 1 then updatePayment mp "x" 5 else mp) := by
  have hpos : (0:ℚ) < b := by linarith
  have h1 : ¬ (b ≤ 0) := by linarith
  have h2 : (5:ℚ) ≤ b + b * 24 / 100 / 12 := by linarith
  have h4 : ¬ (b + b * 24 / 100 / 12 - 5 ≤ 0) := by linarith
  simp only [processDebts, h1, if_false, List.reverse_nil, List.nil_append,
    List.findIdx_cons, decide_eq_true hpos, cond_true, if_pos, List.reverse_cons]
  have h3 : (0:ℚ) ≤ b + b * 24 / 100 / 12 - 5 := by linarith
  simp only [List.length_nil, eq_self_iff_true, if_true, zero_add, add_zero,
    min_eq_left h2, max_eq_right h3]

/-- The simulation loop never exits on the single unpayable debt: whatever
the fuel and the accumulated state, the working balance stays above 1000,
so the `while` condition stays true. -/
theorem payoffLoop_unpayable_none (fuel : ℕ) :
    ∀ (month : ℕ) (totalI : ℚ) (tl : List TimelineEntry) (mp : List MonthlyPayment) (b : ℚ),
      1000 ≤ b →
      payoffLoop 0 "Debt Snowball" fuel
        { debts := [{ id := "x", minimumPayment := 5, interestRate := 24,
                      remainingBalance := b }],
          month := month, totalInterest := totalI, timeline := tl,
          monthlyPayments := mp } = none := by
  induction fuel with
  | zero =>
    intro month totalI tl mp b hb
    have hpos : (0:ℚ) < b := by linarith
    simp [payoffLoop, hpos]
  | succ n ih =>
    intro month totalI tl mp b hb
    have hpos : (0:ℚ) < b := by linarith
    rw [payoffLoop]
    rw [if_pos (by simp [hpos])]
    unfold runPayoffMonth
    dsimp only
    rw [processDebts_single_unpayable _ _ _ _ b hb]
    exact ih _ _ _ _ _ (by linarith)

/-- C2: the claim states the simulation is bounded by a maximum-iteration
safety limit and reports an `UnpayableDebt` condition for debts whose
payment cannot cover interest.  The code has neither: on a debt with
balance 1000, minimum payment 5 and rate 24% (monthly interest 20 > 5),
the `while` loop never terminates — the fuel-indexed model returns `none`
for every fuel — and no `UnpayableDebt` condition exists in the source. -/
theorem claim_C2_unpayable_debt_loops_forever :
    ∀ fuel : ℕ,
      calculateDebtPayoffStrategy fuel
        [{ id := "x", currentBalance := 1000, minimumPayment := 5, interestRate := 24 }]
        0 "Debt Snowball" = none := by
  intro fuel
  unfold calculateDebtPayoffStrategy
  dsimp only [List.map]
  exact payoffLoop_unpayable_none fuel 0 0 [] _ 1000 le_rfl
